import Mathlib

/-!
Verification of rtabmap-matcher (`tools/Matcher/main.cpp`).

A shallow embedding of the `main` function of the matcher tool: option
scanning, depth/right image loading, calibration resolution, construction of
the two observations, the parameters handed to the registration, and the
loop that draws correspondence lines in the two image views.

External collaborators (image decoding, calibration files, argument parsing
of `Parameters`, the registration itself, Qt widgets) appear as inputs.
Real-valued quantities (`double`, `float`, `qreal`) are rationals.
-/

namespace Matcher

/-! ## Data model -/

/-- OpenCV type code of a single-channel 8-bit matrix. -/
def CV_8UC1 : Nat := 0
/-- OpenCV type code of a single-channel 16-bit matrix. -/
def CV_16UC1 : Nat := 2
/-- OpenCV type code of a single-channel 32-bit float matrix. -/
def CV_32FC1 : Nat := 5
/-- OpenCV type code of a three-channel 8-bit matrix. -/
def CV_8UC3 : Nat := 16

/-- The part of a `cv::Mat` that `main` looks at: its size and its type code.
A default-constructed matrix has no rows, no columns and type code 0. -/
structure Mat where
  rows : Nat := 0
  cols : Nat := 0
  type : Nat := 0
deriving DecidableEq

/-- The method `cv::Mat::empty()`. -/
def Mat.empty (m : Mat) : Bool := m.rows == 0 || m.cols == 0

/-- The call `cv::cvtColor(m, m, cv::COLOR_BGR2GRAY)`: same size, one 8-bit channel. -/
def cvtColorBGR2GRAY (m : Mat) : Mat := { m with type := CV_8UC1 }

/-- Modelled from the spec: `CameraModel` is declared outside `main.cpp`;
the data model of the specification gives its content: focal lengths,
principal point and image size. The default-constructed model has all of
them zero. -/
structure CameraModel where
  fx : ℚ := 0
  fy : ℚ := 0
  cx : ℚ := 0
  cy : ℚ := 0
  imageWidth : Nat := 0
  imageHeight : Nat := 0
deriving DecidableEq

/-- Modelled from the spec: `CameraModel::isValidForProjection` is defined
outside `main.cpp`; the specification says a model is valid for projection
iff all intrinsics are positive and the image size is set. -/
def CameraModel.isValidForProjection (m : CameraModel) : Bool :=
  decide (0 < m.fx) && decide (0 < m.fy) && decide (0 < m.cx) && decide (0 < m.cy)
    && decide (0 < m.imageWidth) && decide (0 < m.imageHeight)

/-- The call `model.setImageSize(size)`. -/
def CameraModel.setImageSize (m : CameraModel) (width height : Nat) : CameraModel :=
  { m with imageWidth := width, imageHeight := height }

/-- Modelled from the spec: `StereoCameraModel` is declared outside
`main.cpp`; the specification describes it as a pair of camera models plus
an extrinsic baseline. -/
structure StereoCameraModel where
  left : CameraModel := {}
  right : CameraModel := {}
  baseline : ℚ := 0
deriving DecidableEq

/-- The calibration an observation carries: mono or stereo. -/
inductive Calibration where
  | mono (model : CameraModel)
  | stereo (stereoModel : StereoCameraModel)
deriving DecidableEq

/-- Whether an observation carries the stereo model. -/
def Calibration.isStereo : Calibration → Bool
  | .mono _ => false
  | .stereo _ => true

/-- The value `SensorData(image, depthOrRight, model, id)`. -/
structure SensorData where
  image : Mat
  depthOrRight : Mat
  calibration : Calibration
  id : Int
deriving DecidableEq

/-- A `Signature` as built in `main`, by conversion from a `SensorData`. -/
structure Signature where
  sensorData : SensorData
deriving DecidableEq

/-- The method `Signature::id()`. -/
def Signature.id (s : Signature) : Int := s.sensorData.id

/-- The type `ParametersMap`, a `std::map<std::string, std::string>`, as an
association list read with first-match lookup. -/
abbrev ParametersMap := List (String × String)

/-- The type `ParametersPair`. -/
abbrev ParametersPair := String × String

/-- Lookup of a key in a parameters map. -/
def ParametersMap.find (m : ParametersMap) (key : String) : Option String :=
  List.lookup key m

/-- The method `std::map::insert(pair)`: the pair is added only when the key is not
yet present; an existing entry is left untouched. -/
def ParametersMap.insert (m : ParametersMap) (p : ParametersPair) : ParametersMap :=
  match m.find p.1 with
  | some _ => m
  | none => m ++ [p]

/-- The key `Parameters::kRegRepeatOnce()`. -/
def kRegRepeatOnce : String := "Reg/RepeatOnce"
/-- The key `Parameters::kVisEstimationType()`. -/
def kVisEstimationType : String := "Vis/EstimationType"
/-- The key `Parameters::kVisEpipolarGeometryVar()`. -/
def kVisEpipolarGeometryVar : String := "Vis/EpipolarGeometryVar"

/-- How a run of `main` can end before the registration is invoked. -/
inductive Exit where
  /-- a call of `showUsage()`, which ends in `exit(1)` -/
  | usage
  /-- the `UASSERT` after the depth images are loaded fails -/
  | assertion
  /-- the `exit(-1)` after a failed calibration load -/
  | calibrationLoad
  /-- one of the two images is empty: message printed, `return 0` -/
  | imagesFailed
deriving DecidableEq

/-- Messages printed on the console by the part of `main` before the
registration. -/
inductive Msg where
  | failedFromDepth (path : String)
  | failedToDepth (path : String)
  | fakeModel (width height fx fy cx cy : Nat)
  | monoDetected
  | stereoDetected
  | default2D
deriving DecidableEq

/-- The external world a run reads: decodable image files, calibration
files and the parameter parser. -/
structure Env where
  /-- decoded content of an image file, if the file decodes -/
  files : String → Option Mat
  /-- the result of `CameraModel::load` on a calibration path; `none` when it returns false -/
  loadCameraModel : String → Option CameraModel
  /-- the result of `StereoCameraModel::load` on a calibration path -/
  loadStereoCameraModel : String → Option StereoCameraModel
  /-- the result of `Parameters::parseArguments(argc, argv)` -/
  parseArguments : List String → ParametersMap

/-- The call `cv::imread(path, cv::IMREAD_UNCHANGED)`: the decoded matrix,
or an empty default-constructed one on failure. -/
def imreadUnchanged (env : Env) (path : String) : Mat :=
  match env.files path with
  | some m => if m.empty then {} else m
  | none => {}

/-- The call `cv::imread(path, cv::IMREAD_COLOR)`: always three 8-bit channels. -/
def imreadColor (env : Env) (path : String) : Mat :=
  match env.files path with
  | some m => if m.empty then {} else { m with type := CV_8UC3 }
  | none => {}

/-! ## Option scanning (lines 95-136) -/

/-- The three paths scanned from the command line; empty when not given. -/
structure Options where
  fromDepthPath : String := ""
  toDepthPath : String := ""
  calibrationPath : String := ""
deriving DecidableEq

/-- The loop `for(int i=1; i<argc-2; ++i)` over the option tokens
`argv[1] .. argv[argc-3]`. -/
def scanOptions : List String → Options → Except Exit Options
  | [], o => .ok o
  | [a], o =>
    if a = "--from_depth" ∨ a = "--to_depth" ∨ a = "--calibration" then .error .usage
    else .ok o
  | a :: v :: rest, o =>
    if a = "--from_depth" then scanOptions rest { o with fromDepthPath := v }
    else if a = "--to_depth" then scanOptions rest { o with toDepthPath := v }
    else if a = "--calibration" then scanOptions rest { o with calibrationPath := v }
    else scanOptions (v :: rest) o

/-! ## Loading the depth/right images (lines 155-189) -/

/-- The depth/right matrices after loading, with the messages printed. -/
structure LoadedDepth where
  fromDepth : Mat := {}
  toDepth : Mat := {}
  log : List Msg := []
deriving DecidableEq

/-- Lines 159-170 and 171-182: read one depth/right image, turn a
three-channel 8-bit one into grayscale, and print a message when empty. -/
def loadOneDepth (env : Env) (path : String) (failed : String → Msg) : Mat × List Msg :=
  let depth := imreadUnchanged env path
  if depth.type = CV_8UC3 then (cvtColorBGR2GRAY depth, [])
  else if depth.empty then (depth, [failed path])
  else (depth, [])

/-- Lines 159-170: the from-side depth/right image, when its path is given. -/
def loadFromDepth (env : Env) (o : Options) : Mat × List Msg :=
  if o.fromDepthPath ≠ "" then loadOneDepth env o.fromDepthPath Msg.failedFromDepth
  else (({} : Mat), [])

/-- Lines 171-182: the to-side depth/right image, when its path is given. -/
def loadToDepth (env : Env) (o : Options) : Mat × List Msg :=
  if o.toDepthPath ≠ "" then loadOneDepth env o.toDepthPath Msg.failedToDepth
  else (({} : Mat), [])

/-- Lines 155-189 of `main`. -/
def loadDepthImages (env : Env) (o : Options) : Except Exit LoadedDepth :=
  if o.calibrationPath ≠ "" then
    let fromDepth := (loadFromDepth env o).1
    let toDepth := (loadToDepth env o).1
    if toDepth.empty || (!fromDepth.empty && fromDepth.type == toDepth.type) then
      .ok { fromDepth := fromDepth, toDepth := toDepth,
            log := (loadFromDepth env o).2 ++ (loadToDepth env o).2 }
    else .error .assertion
  else if o.fromDepthPath ≠ "" ∨ o.fromDepthPath ≠ "" then
    .error .usage
  else .ok {}

/-! ## Calibration resolution (lines 191-226) -/

/-- The two model variables of `main` after calibration resolution. -/
structure Models where
  model : CameraModel := {}
  stereoModel : StereoCameraModel := {}
  log : List Msg := []
deriving DecidableEq

/-- Lines 220-226: the fake model built from the first image's size, with
the integer halves `cols/2` and `rows/2`. -/
def fakeModel (imageFrom : Mat) : CameraModel :=
  ({ fx := ((imageFrom.cols / 2 : Nat) : ℚ), fy := ((imageFrom.cols / 2 : Nat) : ℚ),
     cx := ((imageFrom.cols / 2 : Nat) : ℚ), cy := ((imageFrom.rows / 2 : Nat) : ℚ) }
    : CameraModel).setImageSize imageFrom.cols imageFrom.rows

/-- Lines 191-226 of `main`. -/
def resolveCalibration (env : Env) (calibrationPath : String) (imageFrom fromDepth : Mat) :
    Except Exit Models :=
  if !fromDepth.empty then
    if fromDepth.type ≠ CV_8UC1 then
      match env.loadCameraModel calibrationPath with
      | some m => .ok { model := m }
      | none => .error .calibrationLoad
    else
      match env.loadStereoCameraModel calibrationPath with
      | some s => .ok { stereoModel := s }
      | none => .error .calibrationLoad
  else if calibrationPath ≠ "" then
    match env.loadCameraModel calibrationPath with
    | some m => .ok { model := m }
    | none => .error .calibrationLoad
  else
    .ok { model := fakeModel imageFrom,
          log := [Msg.fakeModel imageFrom.cols imageFrom.rows (imageFrom.cols / 2)
                    (imageFrom.cols / 2) (imageFrom.cols / 2) (imageFrom.rows / 2)] }

/-! ## Building the observations (lines 228-241) -/

/-- Lines 228-241 of `main`. -/
def buildSignatures (imageFrom imageTo fromDepth toDepth : Mat) (model : CameraModel)
    (stereoModel : StereoCameraModel) : Signature × Signature × List Msg :=
  if model.isValidForProjection then
    (⟨⟨imageFrom, fromDepth, .mono model, 1⟩⟩, ⟨⟨imageTo, toDepth, .mono model, 2⟩⟩,
      [Msg.monoDetected])
  else
    (⟨⟨imageFrom, fromDepth, .stereo stereoModel, 1⟩⟩,
      ⟨⟨imageTo, toDepth, .stereo stereoModel, 2⟩⟩, [Msg.stereoDetected])

/-! ## Parameters handed to the registration (lines 143-144, 247-253) -/

/-- Lines 247-252: the two inserts done when the from-side depth is empty. -/
def registrationParameters (parameters : ParametersMap) (fromDepth : Mat) :
    ParametersMap × List Msg :=
  if fromDepth.empty then
    (((parameters.insert (kVisEstimationType, "2")).insert (kVisEpipolarGeometryVar, "1")),
      [Msg.default2D])
  else (parameters, [])

/-! ## The run up to the registration call -/

/-- What `main` has computed when it invokes the registration. -/
structure Prepared where
  imageFrom : Mat
  imageTo : Mat
  fromDepth : Mat
  toDepth : Mat
  model : CameraModel
  stereoModel : StereoCameraModel
  dataFrom : Signature
  dataTo : Signature
  parameters : ParametersMap
  log : List Msg
deriving DecidableEq

/-- The option tokens `argv[1] .. argv[argc-3]`. -/
def optionTokens (argv : List String) : List String := (argv.drop 1).take (argv.length - 3)

/-- The first image path, `argv[argc-2]`. -/
def fromPath (argv : List String) : String := argv.getD (argv.length - 2) ""

/-- The second image path, `argv[argc-1]`. -/
def toPath (argv : List String) : String := argv.getD (argv.length - 1) ""

/-- Lines 143-253 of `main`, once the options are scanned. -/
def prepare (env : Env) (argv : List String) (o : Options) : Except Exit Prepared :=
  let parameters := (env.parseArguments argv).insert (kRegRepeatOnce, "false")
  let imageFrom := imreadColor env (fromPath argv)
  let imageTo := imreadColor env (toPath argv)
  if !imageFrom.empty && !imageTo.empty then
    match loadDepthImages env o with
    | .error e => .error e
    | .ok depth =>
      match resolveCalibration env o.calibrationPath imageFrom depth.fromDepth with
      | .error e => .error e
      | .ok models =>
        let (dataFrom, dataTo, logData) :=
          buildSignatures imageFrom imageTo depth.fromDepth depth.toDepth
            models.model models.stereoModel
        let (parameters, logReg) := registrationParameters parameters depth.fromDepth
        .ok { imageFrom := imageFrom, imageTo := imageTo,
              fromDepth := depth.fromDepth, toDepth := depth.toDepth,
              model := models.model, stereoModel := models.stereoModel,
              dataFrom := dataFrom, dataTo := dataTo, parameters := parameters,
              log := depth.log ++ models.log ++ logData ++ logReg }
  else .error .imagesFailed

/-- The function `main` up to the construction of the registration
(lines 85-253). -/
def main (env : Env) (argv : List String) : Except Exit Prepared :=
  if argv.length < 3 then .error .usage
  else
    match scanOptions (optionTokens argv) {} with
    | .error e => .error e
    | .ok o => prepare env argv o

/-! ## Correspondence lines between the two views (lines 302-427) -/

/-- A `QColor`, by its components. -/
structure QColor where
  red : Nat
  green : Nat
  blue : Nat
  alpha : Nat := 255
deriving DecidableEq

/-- A `QRectF`. -/
structure QRectF where
  x : ℚ
  y : ℚ
  width : ℚ
  height : ℚ
deriving DecidableEq

/-- A `KeypointItem`, of which `main` reads only `rect()`. -/
structure KeypointItem where
  rect : QRectF
deriving DecidableEq

/-- A `QMultiMap<int, T>`: a list of entries, several of which may share a key. -/
abbrev QMultiMap (α : Type) := List (Int × α)

/-- The method `QMultiMap::size()`. -/
def QMultiMap.size {α : Type} (m : QMultiMap α) : Nat := m.length

/-- The method `QMultiMap::count(key)`: the number of entries with this key. -/
def QMultiMap.count {α : Type} (m : QMultiMap α) (key : Int) : Nat :=
  (m.map Prod.fst).count key

/-- The method `QMultiMap::uniqueKeys()`: the keys in ascending order, each one once. -/
def QMultiMap.uniqueKeys {α : Type} (m : QMultiMap α) : List Int :=
  ((m.map Prod.fst).insertionSort (fun a b => a ≤ b)).dedup

/-- The method `QMultiMap::value(key)`: a value stored under the key; `none` stands for
the default-constructed value (a null pointer) returned for an absent key. -/
def QMultiMap.value {α : Type} (m : QMultiMap α) (key : Int) : Option α :=
  List.lookup key m

/-- The part of an `ImageView` that the correspondence loop reads. -/
structure ImageView where
  viewScale : ℚ
  width : Int
  height : Int
  defaultMatchingFeatureColor : QColor
  defaultMatchingLineColor : QColor
  features : QMultiMap KeypointItem
deriving DecidableEq

/-- The arguments of one `ImageView::addLine(x1, y1, x2, y2, color)` call. -/
structure Line where
  x1 : ℚ
  y1 : ℚ
  x2 : ℚ
  y2 : ℚ
  color : QColor
deriving DecidableEq

/-- The effects of one iteration of the loop that passes the test of line
360: the two `setFeatureColor` calls and the two `addLine` calls. -/
structure Correspondence where
  id : Int
  featureColorA : QColor
  featureColorB : QColor
  lineA : Line
  lineB : Line
deriving DecidableEq

/-- Lines 304-317: the views are stacked vertically when the first image is
wider than high, and placed side by side otherwise. -/
def verticalLayout (imageFrom : Mat) : Bool := decide (imageFrom.cols > imageFrom.rows)

/-- Line 367: `scaleDiff = viewA->viewScale() / viewB->viewScale()`. -/
def scaleDiff (viewA viewB : ImageView) : ℚ := viewA.viewScale / viewB.viewScale

/-- Lines 368-378: `deltaAX`, zero when vertical, else `viewA->width()/scaleAX`. -/
def deltaAX (vertical : Bool) (viewA : ImageView) : ℚ :=
  if vertical then 0 else (viewA.width : ℚ) / viewA.viewScale

/-- Lines 369-378: `deltaAY`, `viewA->height()/scaleAX` when vertical, else zero. -/
def deltaAY (vertical : Bool) (viewA : ImageView) : ℚ :=
  if vertical then (viewA.height : ℚ) / viewA.viewScale else 0

/-- Lines 380-390: `deltaBX`, zero when vertical, else `viewA->width()/scaleBX`. -/
def deltaBX (vertical : Bool) (viewA viewB : ImageView) : ℚ :=
  if vertical then 0 else (viewA.width : ℚ) / viewB.viewScale

/-- Lines 381-390: `deltaBY`, `viewB->height()/scaleBX` when vertical, else zero. -/
def deltaBY (vertical : Bool) (viewB : ImageView) : ℚ :=
  if vertical then (viewB.height : ℚ) / viewB.viewScale else 0

/-- Lines 360-423: the body of the loop for one id of `wordsA.uniqueKeys()`.
`inliersSet` is the `std::set<int>` built from `info.inliersIDs`. -/
def drawCorrespondence (vertical : Bool) (viewA viewB : ImageView) (inliersSet : List Int)
    (id : Int) : Option Correspondence :=
  let wordsA := viewA.features
  let wordsB := viewB.features
  if id > 0 ∧ wordsA.count id = 1 ∧ wordsB.count id = 1 then
    match wordsA.value id, wordsB.value id with
    | some kptA, some kptB =>
      let inlier : Bool := decide (id ∈ inliersSet)
      let cA := if inlier then viewA.defaultMatchingFeatureColor
                else viewA.defaultMatchingLineColor
      let cB := if inlier then viewB.defaultMatchingFeatureColor
                else viewB.defaultMatchingLineColor
      some
        { id := id
          featureColorA := if inlier then viewA.defaultMatchingFeatureColor
                           else viewA.defaultMatchingLineColor
          featureColorB := if inlier then viewB.defaultMatchingFeatureColor
                           else viewB.defaultMatchingLineColor
          lineA :=
            { x1 := kptA.rect.x + kptA.rect.width / 2
              y1 := kptA.rect.y + kptA.rect.height / 2
              x2 := kptB.rect.x / scaleDiff viewA viewB
                      + kptB.rect.width / scaleDiff viewA viewB / 2 + deltaAX vertical viewA
              y2 := kptB.rect.y / scaleDiff viewA viewB
                      + kptB.rect.height / scaleDiff viewA viewB / 2 + deltaAY vertical viewA
              color := cA }
          lineB :=
            { x1 := kptA.rect.x * scaleDiff viewA viewB
                      + kptA.rect.width * scaleDiff viewA viewB / 2 - deltaBX vertical viewA viewB
              y1 := kptA.rect.y * scaleDiff viewA viewB
                      + kptA.rect.height * scaleDiff viewA viewB / 2 - deltaBY vertical viewB
              x2 := kptB.rect.x + kptB.rect.width / 2
              y2 := kptB.rect.y + kptB.rect.height / 2
              color := cB } }
    | _, _ => none
  else none

/-- Lines 353-427: the loop over `wordsA.uniqueKeys()`, guarded by both
feature maps being non-empty. -/
def drawCorrespondences (vertical : Bool) (viewA viewB : ImageView) (inliersSet : List Int) :
    List Correspondence :=
  if viewA.features.size ≠ 0 ∧ viewB.features.size ≠ 0 then
    viewA.features.uniqueKeys.filterMap (drawCorrespondence vertical viewA viewB inliersSet)
  else []

/-- The lines added to `viewA` by the loop, in order. -/
def linesAddedToA (cs : List Correspondence) : List Line := cs.map (fun c => c.lineA)

/-- The lines added to `viewB` by the loop, in order. -/
def linesAddedToB (cs : List Correspondence) : List Line := cs.map (fun c => c.lineB)

/-! ## Sample inputs -/

/-- A sample world: two 640x480 images, a 5x3 and a 1-row image, a 16-bit
depth map, an 8-bit right image, a right image stored with three 8-bit
channels, and one calibration file that loads both as a mono and as a stereo
model. -/
def sampleEnv : Env where
  files := fun path =>
    if path = "from.png" ∨ path = "to.png" then some ⟨480, 640, CV_8UC3⟩
    else if path = "odd.png" then some ⟨5, 3, CV_8UC3⟩
    else if path = "thin.png" then some ⟨1, 2, CV_8UC3⟩
    else if path = "from_depth.png" ∨ path = "to_depth.png" then some ⟨480, 640, CV_16UC1⟩
    else if path = "from_right.png" ∨ path = "to_right.png" then some ⟨480, 640, CV_8UC1⟩
    else if path = "from_bgr.png" then some ⟨480, 640, CV_8UC3⟩
    else none
  loadCameraModel := fun path =>
    if path = "calib.yaml" then
      some { fx := 525, fy := 525, cx := 320, cy := 240, imageWidth := 640, imageHeight := 480 }
    else none
  loadStereoCameraModel := fun path =>
    if path = "calib.yaml" then
      some { left := { fx := 525, fy := 525, cx := 320, cy := 240,
                       imageWidth := 640, imageHeight := 480 },
             right := { fx := 525, fy := 525, cx := 320, cy := 240,
                        imageWidth := 640, imageHeight := 480 },
             baseline := 1 / 10 }
    else none
  parseArguments := fun argv =>
    match argv with
    | [_, "--Vis/EstimationType", v, _, _] => [(kVisEstimationType, v)]
    | _ => []

/-- The sample world with a calibration file that loads as a mono model
only. -/
def monoEnv : Env :=
  { sampleEnv with loadStereoCameraModel := fun _ => none }

/-- A sample view A: zoom 1/2, magenta for confirmed matches, cyan for
candidates; id 2 occurs twice, id -1 is not positive. -/
def sampleViewA : ImageView where
  viewScale := 1 / 2
  width := 320
  height := 240
  defaultMatchingFeatureColor := ⟨255, 0, 255, 255⟩
  defaultMatchingLineColor := ⟨0, 255, 255, 255⟩
  features := [(-1, ⟨⟨1, 1, 2, 2⟩⟩), (1, ⟨⟨10, 20, 4, 6⟩⟩), (2, ⟨⟨30, 40, 4, 4⟩⟩),
    (2, ⟨⟨31, 41, 4, 4⟩⟩), (3, ⟨⟨50, 60, 2, 2⟩⟩), (4, ⟨⟨70, 80, 2, 2⟩⟩)]

/-- A sample view B: zoom 1/4; id 3 occurs twice, id 5 is absent from A. -/
def sampleViewB : ImageView where
  viewScale := 1 / 4
  width := 160
  height := 120
  defaultMatchingFeatureColor := ⟨255, 0, 255, 255⟩
  defaultMatchingLineColor := ⟨0, 255, 255, 255⟩
  features := [(-1, ⟨⟨1, 1, 2, 2⟩⟩), (1, ⟨⟨12, 24, 8, 4⟩⟩), (2, ⟨⟨32, 42, 4, 4⟩⟩),
    (3, ⟨⟨52, 62, 2, 2⟩⟩), (3, ⟨⟨53, 63, 2, 2⟩⟩), (4, ⟨⟨72, 82, 2, 2⟩⟩),
    (5, ⟨⟨90, 90, 2, 2⟩⟩)]

/-- A view A of a vertical stack, 301 pixels high at zoom 1, whose feature 1
has its centre at (10, 321), where B's point (10, 20) lands in A's frame. -/
def stackedViewA : ImageView where
  viewScale := 1
  width := 400
  height := 301
  defaultMatchingFeatureColor := ⟨255, 0, 255, 255⟩
  defaultMatchingLineColor := ⟨0, 255, 255, 255⟩
  features := [(1, ⟨⟨9, 320, 2, 2⟩⟩)]

/-- A view B of a vertical stack, 300 pixels high at zoom 1, with the centre
of feature 1 at (10, 20). -/
def stackedViewB : ImageView where
  viewScale := 1
  width := 400
  height := 300
  defaultMatchingFeatureColor := ⟨255, 0, 255, 255⟩
  defaultMatchingLineColor := ⟨0, 255, 255, 255⟩
  features := [(1, ⟨⟨9, 19, 2, 2⟩⟩)]

/-! ## General facts about the run -/

theorem ParametersMap.find_insert_of_none (m : ParametersMap) (k v : String)
    (h : m.find k = none) : (m.insert (k, v)).find k = some v := by
  simp only [ParametersMap.insert, h]
  simp only [ParametersMap.find] at h ⊢
  simp [List.lookup_append, h, List.lookup]

theorem ParametersMap.find_insert_of_some (m : ParametersMap) (p : ParametersPair) (k w : String)
    (h : m.find k = some w) : (m.insert p).find k = some w := by
  unfold ParametersMap.insert
  split
  · exact h
  · simp only [ParametersMap.find] at h ⊢
    simp [List.lookup_append, h]

theorem ParametersMap.find_insert_of_ne (m : ParametersMap) (p : ParametersPair) (k : String)
    (h : k ≠ p.1) : (m.insert p).find k = m.find k := by
  unfold ParametersMap.insert
  split
  · rfl
  · simp only [ParametersMap.find]
    rw [List.lookup_append]
    cases hl : List.lookup k m with
    | some w => simp
    | none =>
      obtain ⟨a, b⟩ := p
      have : (k == a) = false := by simpa using h
      simp [List.lookup, this]

theorem main_eq_prepare (env : Env) (argv : List String) (o : Options)
    (hlen : 3 ≤ argv.length)
    (hscan : scanOptions (optionTokens argv) {} = .ok o) :
    main env argv = prepare env argv o := by
  have : ¬ argv.length < 3 := by omega
  simp only [main, this, hscan, if_false]

theorem main_ok_inv (env : Env) (argv : List String) (p : Prepared)
    (h : main env argv = .ok p) :
    ∃ o, scanOptions (optionTokens argv) {} = .ok o ∧ prepare env argv o = .ok p := by
  unfold main at h
  split at h
  · cases h
  · split at h
    · cases h
    · rename_i o ho
      exact ⟨o, ho, h⟩

theorem prepare_ok_inv (env : Env) (argv : List String) (o : Options) (p : Prepared)
    (h : prepare env argv o = .ok p) :
    ∃ depth models,
      loadDepthImages env o = .ok depth ∧
      resolveCalibration env o.calibrationPath p.imageFrom depth.fromDepth = .ok models ∧
      p.imageFrom = imreadColor env (fromPath argv) ∧
      p.imageTo = imreadColor env (toPath argv) ∧
      p.imageFrom.empty = false ∧ p.imageTo.empty = false ∧
      p.fromDepth = depth.fromDepth ∧ p.toDepth = depth.toDepth ∧
      p.model = models.model ∧ p.stereoModel = models.stereoModel ∧
      p.dataFrom = (buildSignatures p.imageFrom p.imageTo depth.fromDepth depth.toDepth
        models.model models.stereoModel).1 ∧
      p.dataTo = (buildSignatures p.imageFrom p.imageTo depth.fromDepth depth.toDepth
        models.model models.stereoModel).2.1 ∧
      p.parameters = (registrationParameters
        ((env.parseArguments argv).insert (kRegRepeatOnce, "false")) depth.fromDepth).1 := by
  unfold prepare at h
  simp only at h
  split at h
  · rename_i himg
    split at h
    · cases h
    · rename_i depth hd
      split at h
      · cases h
      · rename_i models hm
        simp only [Except.ok.injEq] at h
        subst h
        simp at himg
        exact ⟨depth, models, hd, hm, rfl, rfl, himg.1, himg.2, rfl, rfl, rfl, rfl, rfl, rfl, rfl⟩
  · cases h

theorem prepare_ok (env : Env) (argv : List String) (o : Options) (depth : LoadedDepth)
    (models : Models)
    (hfrom : (imreadColor env (fromPath argv)).empty = false)
    (hto : (imreadColor env (toPath argv)).empty = false)
    (hd : loadDepthImages env o = .ok depth)
    (hm : resolveCalibration env o.calibrationPath
      (imreadColor env (fromPath argv)) depth.fromDepth = .ok models) :
    ∃ p, prepare env argv o = .ok p ∧
      p.imageFrom = imreadColor env (fromPath argv) ∧
      p.imageTo = imreadColor env (toPath argv) ∧
      p.fromDepth = depth.fromDepth ∧ p.toDepth = depth.toDepth ∧
      p.model = models.model ∧ p.stereoModel = models.stereoModel ∧
      p.dataFrom = (buildSignatures p.imageFrom p.imageTo depth.fromDepth depth.toDepth
        models.model models.stereoModel).1 ∧
      p.dataTo = (buildSignatures p.imageFrom p.imageTo depth.fromDepth depth.toDepth
        models.model models.stereoModel).2.1 ∧
      p.parameters = (registrationParameters
        ((env.parseArguments argv).insert (kRegRepeatOnce, "false")) depth.fromDepth).1 ∧
      p.log = depth.log ++ models.log ++ (buildSignatures p.imageFrom p.imageTo depth.fromDepth
        depth.toDepth models.model models.stereoModel).2.2 ++ (registrationParameters
        ((env.parseArguments argv).insert (kRegRepeatOnce, "false")) depth.fromDepth).2 := by
  simp only [prepare, hfrom, hto, hd, hm, Bool.not_false, Bool.and_self, if_true]
  exact ⟨_, rfl, rfl, rfl, rfl, rfl, rfl, rfl, rfl, rfl, rfl, rfl⟩

theorem imreadUnchanged_of_empty (env : Env) (path : String)
    (h : (imreadUnchanged env path).empty = true) : imreadUnchanged env path = {} := by
  unfold imreadUnchanged at h ⊢
  split
  · rename_i m hm
    rw [hm] at h
    simp only at h
    by_cases hme : m.empty = true
    · simp [hme]
    · simp only [hme, if_false] at h
      exact absurd h hme
  · rfl

theorem loadOneDepth_of_empty (env : Env) (path : String) (failed : String → Msg)
    (h : (imreadUnchanged env path).empty = true) :
    loadOneDepth env path failed = ({}, [failed path]) := by
  have h0 := imreadUnchanged_of_empty env path h
  simp [loadOneDepth, h0, CV_8UC3, Mat.empty]

theorem loadOneDepth_of_nonempty (env : Env) (path : String) (failed : String → Msg)
    (h : (imreadUnchanged env path).empty = false) :
    (loadOneDepth env path failed).1.empty = false := by
  unfold loadOneDepth
  simp only
  split
  · simpa [cvtColorBGR2GRAY, Mat.empty] using h
  · simp [h]

theorem loadDepthImages_calibrated (env : Env) (o : Options) (h : o.calibrationPath ≠ "") :
    loadDepthImages env o =
      if (loadToDepth env o).1.empty
          || (!(loadFromDepth env o).1.empty
              && (loadFromDepth env o).1.type == (loadToDepth env o).1.type) then
        .ok { fromDepth := (loadFromDepth env o).1, toDepth := (loadToDepth env o).1,
              log := (loadFromDepth env o).2 ++ (loadToDepth env o).2 }
      else .error .assertion := by
  unfold loadDepthImages
  rw [if_pos h]

theorem loadDepthImages_uncalibrated_from (env : Env) (o : Options)
    (h : o.calibrationPath = "") (hf : o.fromDepthPath ≠ "") :
    loadDepthImages env o = .error .usage := by
  simp [loadDepthImages, h, hf]

theorem loadDepthImages_uncalibrated_no_from (env : Env) (o : Options)
    (h : o.calibrationPath = "") (hf : o.fromDepthPath = "") :
    loadDepthImages env o = .ok {} := by
  simp [loadDepthImages, h, hf]

theorem resolveCalibration_calibrated (env : Env) (calibrationPath : String)
    (imageFrom fromDepth : Mat) (h : calibrationPath ≠ "")
    (hmono : (env.loadCameraModel calibrationPath).isSome = true)
    (hstereo : (env.loadStereoCameraModel calibrationPath).isSome = true) :
    ∃ models, resolveCalibration env calibrationPath imageFrom fromDepth = .ok models := by
  obtain ⟨m, hm⟩ := Option.isSome_iff_exists.mp hmono
  obtain ⟨s, hs⟩ := Option.isSome_iff_exists.mp hstereo
  unfold resolveCalibration
  rw [hm, hs]
  simp only [h, ne_eq, not_false_eq_true, if_true]
  split
  · split
    · exact ⟨_, rfl⟩
    · exact ⟨_, rfl⟩
  · exact ⟨_, rfl⟩

theorem fakeModel_valid_iff (imageFrom : Mat) :
    (fakeModel imageFrom).isValidForProjection = true ↔ 2 ≤ imageFrom.cols ∧ 2 ≤ imageFrom.rows := by
  simp only [fakeModel, CameraModel.setImageSize, CameraModel.isValidForProjection,
    Bool.and_eq_true, decide_eq_true_eq, Nat.cast_pos]
  omega

theorem ite_of_iff {C S A B : Prop} [Decidable C] [Decidable S] (hiff : C ↔ S)
    (h : if S then A else B) : if C then A else B := by
  by_cases hS : S
  · rw [if_pos (hiff.mpr hS)]
    rwa [if_pos hS] at h
  · rw [if_neg (fun hC => hS (hiff.mp hC))]
    rwa [if_neg hS] at h

theorem loadFromDepth_fst (env : Env) (o : Options) :
    (loadFromDepth env o).1 =
      if o.fromDepthPath ≠ "" then
        if (imreadUnchanged env o.fromDepthPath).type = CV_8UC3 then
          { rows := (imreadUnchanged env o.fromDepthPath).rows,
            cols := (imreadUnchanged env o.fromDepthPath).cols, type := CV_8UC1 }
        else imreadUnchanged env o.fromDepthPath
      else {} := by
  unfold loadFromDepth
  by_cases hp : o.fromDepthPath = ""
  · simp [hp]
  · simp only [ne_eq, hp, not_false_eq_true, if_true]
    unfold loadOneDepth
    simp only
    by_cases ht : (imreadUnchanged env o.fromDepthPath).type = CV_8UC3
    · simp only [ht, if_true]
      rfl
    · simp only [ht, if_false]
      split <;> rfl

theorem loadFromDepth_stereo_iff (env : Env) (o : Options) :
    ((loadFromDepth env o).1.empty = false ∧ (loadFromDepth env o).1.type = CV_8UC1) ↔
      (o.fromDepthPath ≠ "" ∧ (imreadUnchanged env o.fromDepthPath).empty = false ∧
        ((imreadUnchanged env o.fromDepthPath).type = CV_8UC1 ∨
          (imreadUnchanged env o.fromDepthPath).type = CV_8UC3)) := by
  rw [loadFromDepth_fst]
  by_cases hp : o.fromDepthPath = ""
  · simp [hp, Mat.empty]
  · simp only [ne_eq, hp, not_false_eq_true, if_true, true_and]
    by_cases ht : (imreadUnchanged env o.fromDepthPath).type = CV_8UC3
    · simp only [ht, if_true, or_true, and_true]
      simp [Mat.empty]
    · simp only [ht, if_false, or_false]

theorem loadDepthImages_ok_inv (env : Env) (o : Options) (depth : LoadedDepth)
    (hcal : o.calibrationPath ≠ "") (hd : loadDepthImages env o = .ok depth) :
    depth.fromDepth = (loadFromDepth env o).1 ∧ depth.toDepth = (loadToDepth env o).1 := by
  rw [loadDepthImages_calibrated env o hcal] at hd
  split at hd
  · simp only [Except.ok.injEq] at hd
    rw [← hd]
    exact ⟨rfl, rfl⟩
  · cases hd

theorem resolveCalibration_of_load (env : Env) (calibrationPath : String)
    (imageFrom fromDepth : Mat) (h : calibrationPath ≠ "")
    (hload : if fromDepth.empty = false ∧ fromDepth.type = CV_8UC1
      then (env.loadStereoCameraModel calibrationPath).isSome = true
      else (env.loadCameraModel calibrationPath).isSome = true) :
    ∃ models, resolveCalibration env calibrationPath imageFrom fromDepth = .ok models := by
  unfold resolveCalibration
  by_cases hc : fromDepth.empty = false ∧ fromDepth.type = CV_8UC1
  · rw [if_pos hc] at hload
    obtain ⟨s, hs⟩ := Option.isSome_iff_exists.mp hload
    exact ⟨{ stereoModel := s }, by simp [hc.1, hc.2, hs]⟩
  · rw [if_neg hc] at hload
    obtain ⟨m, hmm⟩ := Option.isSome_iff_exists.mp hload
    refine ⟨{ model := m }, ?_⟩
    by_cases he : fromDepth.empty = true
    · simp [he, h, hmm]
    · have he2 : fromDepth.empty = false := by simpa using he
      have ht : fromDepth.type ≠ CV_8UC1 := fun h2 => hc ⟨he2, h2⟩
      simp [he2, ht, hmm]

/-! ## Missing calibration (C1) -/

/-- C1 (evaluation at the failing input): with no calibration file and only
`--to_depth` supplied, the run is not stopped by the usage error: the options
scan records the to-side path, yet `main` goes on, builds the fake model and
both observations (ids 1 and 2), with the to-side depth never loaded. -/
theorem c1_to_depth_only_is_not_rejected :
    scanOptions (optionTokens ["rtabmap-matcher", "--to_depth", "to_depth.png", "from.png", "to.png"])
        {} = .ok { toDepthPath := "to_depth.png" } ∧
    ∃ p, main sampleEnv
        ["rtabmap-matcher", "--to_depth", "to_depth.png", "from.png", "to.png"] = .ok p ∧
      p.dataFrom.id = 1 ∧ p.dataTo.id = 2 ∧ p.toDepth.empty = true ∧
      p.model = fakeModel p.imageFrom := by
  refine ⟨rfl, _, rfl, rfl, rfl, rfl, rfl⟩

/-! ## Estimation type handed to the registration (C2) -/

/-- C2 (counterexample): the user configures `Vis/EstimationType` = "1", no
depth is loaded on either side, and the map handed to the registration still
holds "1", not "2". -/
theorem c2_configured_type_is_kept :
    ∃ p, main sampleEnv
        ["rtabmap-matcher", "--Vis/EstimationType", "1", "from.png", "to.png"] = .ok p ∧
      (sampleEnv.parseArguments
        ["rtabmap-matcher", "--Vis/EstimationType", "1", "from.png", "to.png"]).find
          kVisEstimationType = some "1" ∧
      p.fromDepth.empty = true ∧ p.toDepth.empty = true ∧
      p.parameters.find kVisEstimationType = some "1" ∧
      p.parameters.find kVisEstimationType ≠ some "2" := by
  refine ⟨_, rfl, rfl, rfl, rfl, rfl, ?_⟩
  decide

/-- C2 (amended): in every run that reaches the registration with no depth
loaded on either side, the map handed to the registration has
`Vis/EstimationType` = "2" when the parsed configuration has no entry for it,
and keeps the configured value when it has one. -/
theorem c2_estimation_type_defaults_to_2d (env : Env) (argv : List String) (p : Prepared)
    (hrun : main env argv = .ok p)
    (hfrom : p.fromDepth.empty = true) (_hto : p.toDepth.empty = true) :
    ((env.parseArguments argv).find kVisEstimationType = none →
        p.parameters.find kVisEstimationType = some "2") ∧
    (∀ v, (env.parseArguments argv).find kVisEstimationType = some v →
        p.parameters.find kVisEstimationType = some v) := by
  obtain ⟨o, _, hprep⟩ := main_ok_inv env argv p hrun
  obtain ⟨depth, models, _, _, _, _, _, _, hfd, _, _, _, _, _, hpar⟩ :=
    prepare_ok_inv env argv o p hprep
  rw [hfd] at hfrom
  rw [hpar]
  simp only [registrationParameters, hfrom, if_true]
  constructor
  · intro hnone
    have h1 : ((env.parseArguments argv).insert (kRegRepeatOnce, "false")).find
        kVisEstimationType = none := by
      rw [ParametersMap.find_insert_of_ne _ _ _ (by decide)]
      exact hnone
    rw [ParametersMap.find_insert_of_ne _ _ _ (by decide)]
    exact ParametersMap.find_insert_of_none _ _ _ h1
  · intro v hv
    exact ParametersMap.find_insert_of_some _ _ _ _
      (ParametersMap.find_insert_of_some _ _ _ _
        (ParametersMap.find_insert_of_some _ _ _ _ hv))

/-- C2 (witness): a run without options and without depth hands
`Vis/EstimationType` = "2" to the registration. -/
theorem c2_estimation_type_defaults_to_2d_witness :
    ∃ p, main sampleEnv ["rtabmap-matcher", "from.png", "to.png"] = .ok p ∧
      p.fromDepth.empty = true ∧ p.toDepth.empty = true ∧
      p.parameters.find kVisEstimationType = some "2" :=
  ⟨_, rfl, rfl, rfl,
    (c2_estimation_type_defaults_to_2d sampleEnv ["rtabmap-matcher", "from.png", "to.png"] _
      rfl rfl rfl).1 rfl⟩

/-! ## The fake calibration model (C5, C9) -/

/-- C5 (counterexample): for a first image 3 pixels wide and 5 high, with no
calibration and no depth, the model has fx = 1 and cy = 2, which are not
w/2 = 3/2 and h/2 = 5/2. -/
theorem c5_odd_size_is_not_halved :
    ∃ p, main sampleEnv ["rtabmap-matcher", "odd.png", "to.png"] = .ok p ∧
      p.imageFrom.cols = 3 ∧ p.imageFrom.rows = 5 ∧
      p.model.fx = 1 ∧ p.model.cy = 2 ∧
      p.model.fx ≠ (p.imageFrom.cols : ℚ) / 2 ∧ p.model.cy ≠ (p.imageFrom.rows : ℚ) / 2 := by
  refine ⟨_, rfl, rfl, rfl, ?_, ?_, ?_, ?_⟩
  · show (((3 / 2 : Nat) : Nat) : ℚ) = 1
    norm_num
  · show (((5 / 2 : Nat) : Nat) : ℚ) = 2
    norm_num
  · show (((3 / 2 : Nat) : Nat) : ℚ) ≠ ((3 : Nat) : ℚ) / 2
    norm_num
  · show (((5 / 2 : Nat) : Nat) : ℚ) ≠ ((5 : Nat) : ℚ) / 2
    norm_num

/-- C5 (amended): for every non-empty first image of width w and height h,
when no calibration file and no depth/right input are given, the run reaches
the registration with a mono model whose fx, fy and cx are the integer half
of w (w/2 rounded down), whose cy is the integer half of h, and whose image
size is w x h; these are the exact halves when w, respectively h, is even. -/
theorem c5_fake_model_integer_halves (env : Env) (argv : List String) (o : Options)
    (hlen : 3 ≤ argv.length)
    (hscan : scanOptions (optionTokens argv) {} = .ok o)
    (hcal : o.calibrationPath = "") (hfd : o.fromDepthPath = "") (_htd : o.toDepthPath = "")
    (hfrom : (imreadColor env (fromPath argv)).empty = false)
    (hto : (imreadColor env (toPath argv)).empty = false) :
    ∃ p, main env argv = .ok p ∧
      p.imageFrom = imreadColor env (fromPath argv) ∧
      p.model.fx = ((p.imageFrom.cols / 2 : Nat) : ℚ) ∧
      p.model.fy = ((p.imageFrom.cols / 2 : Nat) : ℚ) ∧
      p.model.cx = ((p.imageFrom.cols / 2 : Nat) : ℚ) ∧
      p.model.cy = ((p.imageFrom.rows / 2 : Nat) : ℚ) ∧
      p.model.imageWidth = p.imageFrom.cols ∧ p.model.imageHeight = p.imageFrom.rows ∧
      (2 ∣ p.imageFrom.cols → p.model.fx = (p.imageFrom.cols : ℚ) / 2 ∧
        p.model.fy = (p.imageFrom.cols : ℚ) / 2 ∧ p.model.cx = (p.imageFrom.cols : ℚ) / 2) ∧
      (2 ∣ p.imageFrom.rows → p.model.cy = (p.imageFrom.rows : ℚ) / 2) := by
  have hd := loadDepthImages_uncalibrated_no_from env o hcal hfd
  have hm : resolveCalibration env o.calibrationPath (imreadColor env (fromPath argv))
      ({} : LoadedDepth).fromDepth = .ok
        { model := fakeModel (imreadColor env (fromPath argv)),
          log := [Msg.fakeModel (imreadColor env (fromPath argv)).cols
            (imreadColor env (fromPath argv)).rows ((imreadColor env (fromPath argv)).cols / 2)
            ((imreadColor env (fromPath argv)).cols / 2)
            ((imreadColor env (fromPath argv)).cols / 2)
            ((imreadColor env (fromPath argv)).rows / 2)] } := by
    simp [resolveCalibration, hcal, Mat.empty]
  obtain ⟨p, hp, himg, _, _, _, hmodel, _⟩ := prepare_ok env argv o _ _ hfrom hto hd hm
  refine ⟨p, ?_, himg, ?_, ?_, ?_, ?_, ?_, ?_, ?_, ?_⟩
  · rw [main_eq_prepare env argv o hlen hscan, hp]
  all_goals rw [hmodel, himg]
  all_goals simp only [fakeModel, CameraModel.setImageSize]
  · rintro ⟨k, hk⟩
    rw [hk]
    simp
  · rintro ⟨k, hk⟩
    rw [hk]
    simp

/-- C5 (witness): the 640x480 sample pair without options. -/
theorem c5_fake_model_integer_halves_witness :
    ∃ p, main sampleEnv ["rtabmap-matcher", "from.png", "to.png"] = .ok p ∧
      p.imageFrom = imreadColor sampleEnv (fromPath ["rtabmap-matcher", "from.png", "to.png"]) ∧
      p.model.fx = ((p.imageFrom.cols / 2 : Nat) : ℚ) ∧
      p.model.fy = ((p.imageFrom.cols / 2 : Nat) : ℚ) ∧
      p.model.cx = ((p.imageFrom.cols / 2 : Nat) : ℚ) ∧
      p.model.cy = ((p.imageFrom.rows / 2 : Nat) : ℚ) ∧
      p.model.imageWidth = p.imageFrom.cols ∧ p.model.imageHeight = p.imageFrom.rows ∧
      (2 ∣ p.imageFrom.cols → p.model.fx = (p.imageFrom.cols : ℚ) / 2 ∧
        p.model.fy = (p.imageFrom.cols : ℚ) / 2 ∧ p.model.cx = (p.imageFrom.cols : ℚ) / 2) ∧
      (2 ∣ p.imageFrom.rows → p.model.cy = (p.imageFrom.rows : ℚ) / 2) :=
  c5_fake_model_integer_halves sampleEnv ["rtabmap-matcher", "from.png", "to.png"] {}
    (by decide) rfl rfl rfl rfl rfl rfl

/-- C9 (evaluation at the failing input): for a first image 2 pixels wide and
1 high, with no calibration and no depth, the fake model has cy = 0, is not
valid for projection, and both observations are built on the stereo branch
with the unloaded (default) stereo model. -/
theorem c9_one_row_image_takes_stereo_branch :
    ∃ p, main sampleEnv ["rtabmap-matcher", "thin.png", "to.png"] = .ok p ∧
      p.imageFrom.cols = 2 ∧ p.imageFrom.rows = 1 ∧
      p.model = fakeModel p.imageFrom ∧ p.model.cy = 0 ∧
      p.model.isValidForProjection = false ∧
      p.stereoModel = {} ∧
      p.dataFrom.sensorData.calibration = .stereo {} ∧
      p.dataTo.sensorData.calibration = .stereo {} := by
  refine ⟨_, rfl, rfl, rfl, rfl, ?_, rfl, rfl, rfl, rfl⟩
  show (((1 / 2 : Nat) : Nat) : ℚ) = 0
  norm_num


/-! ## Failed depth/right loads (C6) -/

/-- C6 (counterexample): with a calibration file, `--from_depth` names a file
that does not decode and `--to_depth` one that does; the assertion after the
loads fails and the run aborts. -/
theorem c6_failed_from_depth_aborts :
    (imreadUnchanged sampleEnv "missing.png").empty = true ∧
    (imreadUnchanged sampleEnv "to_depth.png").empty = false ∧
    main sampleEnv
      ["rtabmap-matcher", "--calibration", "calib.yaml", "--from_depth", "missing.png",
        "--to_depth", "to_depth.png", "from.png", "to.png"] = .error .assertion :=
  ⟨rfl, rfl, rfl⟩

/-- C6 (amended): in every run with a calibration file and two non-empty
images, a `--to_depth` image that fails to load is only logged and, when the
one calibration load the run then performs succeeds, the run goes on with an
empty to-side depth; a `--from_depth` image that fails to load is only logged
and the run goes on with an empty from-side depth provided the to-side depth
is empty too (not requested, or failed) and the mono calibration load that
the run then performs succeeds; when `--from_depth` fails and `--to_depth`
loads, the assertion after the loads aborts the run. -/
theorem c6_depth_load_failure (env : Env) (argv : List String) (o : Options)
    (hlen : 3 ≤ argv.length)
    (hscan : scanOptions (optionTokens argv) {} = .ok o)
    (hcal : o.calibrationPath ≠ "")
    (hfrom : (imreadColor env (fromPath argv)).empty = false)
    (hto : (imreadColor env (toPath argv)).empty = false) :
    (o.toDepthPath ≠ "" → (imreadUnchanged env o.toDepthPath).empty = true →
      (if o.fromDepthPath ≠ "" ∧ (imreadUnchanged env o.fromDepthPath).empty = false ∧
          ((imreadUnchanged env o.fromDepthPath).type = CV_8UC1 ∨
            (imreadUnchanged env o.fromDepthPath).type = CV_8UC3)
        then (env.loadStereoCameraModel o.calibrationPath).isSome = true
        else (env.loadCameraModel o.calibrationPath).isSome = true) →
      ∃ p, main env argv = .ok p ∧ p.toDepth.empty = true ∧
        Msg.failedToDepth o.toDepthPath ∈ p.log) ∧
    (o.fromDepthPath ≠ "" → (imreadUnchanged env o.fromDepthPath).empty = true →
      (o.toDepthPath = "" ∨ (imreadUnchanged env o.toDepthPath).empty = true) →
      (env.loadCameraModel o.calibrationPath).isSome = true →
      ∃ p, main env argv = .ok p ∧ p.fromDepth.empty = true ∧ p.toDepth.empty = true ∧
        Msg.failedFromDepth o.fromDepthPath ∈ p.log) ∧
    (o.fromDepthPath ≠ "" → (imreadUnchanged env o.fromDepthPath).empty = true →
      o.toDepthPath ≠ "" → (imreadUnchanged env o.toDepthPath).empty = false →
      main env argv = .error .assertion) := by
  rw [main_eq_prepare env argv o hlen hscan]
  have hld := loadDepthImages_calibrated env o hcal
  have key : ∀ depth, loadDepthImages env o = .ok depth →
      (if depth.fromDepth.empty = false ∧ depth.fromDepth.type = CV_8UC1
        then (env.loadStereoCameraModel o.calibrationPath).isSome = true
        else (env.loadCameraModel o.calibrationPath).isSome = true) →
      ∃ p, prepare env argv o = .ok p ∧ p.fromDepth = depth.fromDepth ∧
        p.toDepth = depth.toDepth ∧ ∀ msg, msg ∈ depth.log → msg ∈ p.log := by
    intro depth hd hload
    obtain ⟨models, hm⟩ := resolveCalibration_of_load env o.calibrationPath
      (imreadColor env (fromPath argv)) depth.fromDepth hcal hload
    obtain ⟨p, hp, _, _, hfd, htd, _, _, _, _, _, hlog⟩ :=
      prepare_ok env argv o depth models hfrom hto hd hm
    refine ⟨p, hp, hfd, htd, ?_⟩
    intro msg hmsg
    rw [hlog]
    simp [hmsg]
  refine ⟨?_, ?_, ?_⟩
  · intro htp hte hload
    have ht : loadToDepth env o = ({}, [Msg.failedToDepth o.toDepthPath]) := by
      simp only [loadToDepth, htp, ne_eq, not_false_eq_true, if_true]
      exact loadOneDepth_of_empty env _ _ hte
    have hd : loadDepthImages env o = .ok
        { fromDepth := (loadFromDepth env o).1, toDepth := {},
          log := (loadFromDepth env o).2 ++ [Msg.failedToDepth o.toDepthPath] } := by
      rw [hld, ht]
      simp [Mat.empty]
    obtain ⟨p, hp, _, htd, hlog⟩ :=
      key _ hd (ite_of_iff (loadFromDepth_stereo_iff env o) hload)
    refine ⟨p, hp, ?_, hlog _ (by simp)⟩
    rw [htd]
    rfl
  · intro hfp hfe hte hmono
    have hf : loadFromDepth env o = ({}, [Msg.failedFromDepth o.fromDepthPath]) := by
      simp only [loadFromDepth, hfp, ne_eq, not_false_eq_true, if_true]
      exact loadOneDepth_of_empty env _ _ hfe
    have ht : (loadToDepth env o).1 = {} := by
      by_cases htp : o.toDepthPath = ""
      · simp [loadToDepth, htp]
      · have hte2 := hte.resolve_left htp
        simp only [loadToDepth, htp, ne_eq, not_false_eq_true, if_true]
        rw [loadOneDepth_of_empty env _ _ hte2]
    have hd : loadDepthImages env o = .ok
        { fromDepth := {}, toDepth := {},
          log := [Msg.failedFromDepth o.fromDepthPath] ++ (loadToDepth env o).2 } := by
      rw [hld, hf, ht]
      simp [Mat.empty]
    have hne : ¬ ((({} : Mat).empty = false) ∧ ({} : Mat).type = CV_8UC1) := by
      simp [Mat.empty]
    obtain ⟨p, hp, hfd, htd, hlog⟩ := key _ hd (by rw [if_neg hne]; exact hmono)
    refine ⟨p, hp, ?_, ?_, hlog _ (by simp)⟩
    · rw [hfd]
      rfl
    · rw [htd]
      rfl
  · intro hfp hfe htp hte
    have hf : loadFromDepth env o = ({}, [Msg.failedFromDepth o.fromDepthPath]) := by
      simp only [loadFromDepth, hfp, ne_eq, not_false_eq_true, if_true]
      exact loadOneDepth_of_empty env _ _ hfe
    have ht : (loadToDepth env o).1.empty = false := by
      simp only [loadToDepth, htp, ne_eq, not_false_eq_true, if_true]
      exact loadOneDepth_of_nonempty env _ _ hte
    have hd : loadDepthImages env o = .error .assertion := by
      rw [hld, hf, ht]
      simp [Mat.empty]
    simp only [prepare, hfrom, hto, hd, Bool.not_false, Bool.and_self, if_true]

/-- C6 (witness): the calibration file loads as a mono model only, both depth
files fail to load, and the run goes on. -/
theorem c6_depth_load_failure_witness :
    ∃ p, main monoEnv
        ["rtabmap-matcher", "--calibration", "calib.yaml", "--from_depth", "missing.png",
          "--to_depth", "absent.png", "from.png", "to.png"] = .ok p ∧
      p.fromDepth.empty = true ∧ p.toDepth.empty = true ∧
      Msg.failedFromDepth "missing.png" ∈ p.log :=
  (c6_depth_load_failure monoEnv
    ["rtabmap-matcher", "--calibration", "calib.yaml", "--from_depth", "missing.png",
      "--to_depth", "absent.png", "from.png", "to.png"]
    { fromDepthPath := "missing.png", toDepthPath := "absent.png",
      calibrationPath := "calib.yaml" }
    (by decide) rfl (by decide) rfl rfl).2.1 (by decide) rfl (Or.inr rfl) rfl

/-! ## Mono or stereo calibration (C4) -/

/-- The selection of lines 191-241 in terms of the from-side matrix that the
load stage returned. -/
theorem mono_or_stereo_of_depth (env : Env) (argv : List String) (o : Options) (depth : LoadedDepth)
    (hlen : 3 ≤ argv.length)
    (hscan : scanOptions (optionTokens argv) {} = .ok o)
    (hcal : o.calibrationPath ≠ "")
    (hfrom : (imreadColor env (fromPath argv)).empty = false)
    (hto : (imreadColor env (toPath argv)).empty = false)
    (hdepth : loadDepthImages env o = .ok depth)
    (hvalid : ∀ m, env.loadCameraModel o.calibrationPath = some m →
      m.isValidForProjection = true)
    (hload : if depth.fromDepth.empty = false ∧ depth.fromDepth.type = CV_8UC1
      then (env.loadStereoCameraModel o.calibrationPath).isSome = true
      else (env.loadCameraModel o.calibrationPath).isSome = true) :
    ∃ p, main env argv = .ok p ∧ p.fromDepth = depth.fromDepth ∧
      p.dataFrom.id = 1 ∧ p.dataTo.id = 2 ∧
      (p.dataFrom.sensorData.calibration.isStereo = true ↔
        (p.fromDepth.empty = false ∧ p.fromDepth.type = CV_8UC1)) ∧
      (p.dataTo.sensorData.calibration.isStereo = true ↔
        (p.fromDepth.empty = false ∧ p.fromDepth.type = CV_8UC1)) ∧
      ((p.fromDepth.empty = false ∧ p.fromDepth.type = CV_8UC1) →
        ∃ s, env.loadStereoCameraModel o.calibrationPath = some s ∧
          p.dataFrom.sensorData.calibration = .stereo s ∧
          p.dataTo.sensorData.calibration = .stereo s ∧ p.model = {}) ∧
      (¬ (p.fromDepth.empty = false ∧ p.fromDepth.type = CV_8UC1) →
        ∃ m, env.loadCameraModel o.calibrationPath = some m ∧
          p.dataFrom.sensorData.calibration = .mono m ∧
          p.dataTo.sensorData.calibration = .mono m ∧ p.stereoModel = {}) := by
  rw [main_eq_prepare env argv o hlen hscan]
  by_cases hc : depth.fromDepth.empty = false ∧ depth.fromDepth.type = CV_8UC1
  · rw [if_pos hc] at hload
    obtain ⟨s, hs⟩ := Option.isSome_iff_exists.mp hload
    have hm : resolveCalibration env o.calibrationPath (imreadColor env (fromPath argv))
        depth.fromDepth = .ok { stereoModel := s } := by
      simp [resolveCalibration, hc.1, hc.2, hs]
    obtain ⟨p, hp, _, _, hfd, _, hmodel, _, hdf, hdt, _⟩ :=
      prepare_ok env argv o depth _ hfrom hto hdepth hm
    have hinv : ({} : CameraModel).isValidForProjection = false := rfl
    simp only [buildSignatures, hinv] at hdf hdt
    refine ⟨p, hp, hfd, ?_, ?_, ?_, ?_, ?_, ?_⟩
    · rw [hdf]; rfl
    · rw [hdt]; rfl
    · rw [hdf, hfd]; simp [Calibration.isStereo, hc]
    · rw [hdt, hfd]; simp [Calibration.isStereo, hc]
    · intro _
      refine ⟨s, hs, ?_, ?_, hmodel⟩
      · rw [hdf]; rfl
      · rw [hdt]; rfl
    · intro hn
      rw [hfd] at hn
      exact absurd hc hn
  · rw [if_neg hc] at hload
    obtain ⟨m, hmm⟩ := Option.isSome_iff_exists.mp hload
    have hm : resolveCalibration env o.calibrationPath (imreadColor env (fromPath argv))
        depth.fromDepth = .ok { model := m } := by
      unfold resolveCalibration
      by_cases he : depth.fromDepth.empty = true
      · simp [he, hcal, hmm]
      · have he2 : depth.fromDepth.empty = false := by simpa using he
        have ht : depth.fromDepth.type ≠ CV_8UC1 := fun h => hc ⟨he2, h⟩
        simp [he2, ht, hmm]
    obtain ⟨p, hp, _, _, hfd, _, _, hstereo, hdf, hdt, _⟩ :=
      prepare_ok env argv o depth _ hfrom hto hdepth hm
    have hv := hvalid m hmm
    simp only [buildSignatures, hv, if_true] at hdf hdt
    refine ⟨p, hp, hfd, ?_, ?_, ?_, ?_, ?_, ?_⟩
    · rw [hdf]; rfl
    · rw [hdt]; rfl
    · rw [hdf, hfd]; simp only [Calibration.isStereo]
      constructor
      · intro h; cases h
      · intro h; exact absurd h hc
    · rw [hdt, hfd]; simp only [Calibration.isStereo]
      constructor
      · intro h; cases h
      · intro h; exact absurd h hc
    · intro h
      rw [hfd] at h
      exact absurd h hc
    · intro _
      refine ⟨m, hmm, ?_, ?_, hstereo⟩
      · rw [hdf]
      · rw [hdt]

/-- C4: in every run that reaches the calibration load with a calibration
file, where the load the run performs succeeds and a loaded mono model is
valid for projection, the from-side depth/right matrix is the image read from
`--from_depth` with a three-channel 8-bit image turned into a single-channel
8-bit one of the same size (and is empty without `--from_depth`); the run
builds both observations (ids 1 and 2); they carry the loaded stereo model
iff that matrix is non-empty and of type `CV_8UC1`, that is iff the image
read is non-empty and has one or three 8-bit channels, and the loaded mono
model otherwise; the model variable of the other kind is left unloaded. -/
theorem c4_mono_or_stereo (env : Env) (argv : List String) (o : Options) (depth : LoadedDepth)
    (hlen : 3 ≤ argv.length)
    (hscan : scanOptions (optionTokens argv) {} = .ok o)
    (hcal : o.calibrationPath ≠ "")
    (hfrom : (imreadColor env (fromPath argv)).empty = false)
    (hto : (imreadColor env (toPath argv)).empty = false)
    (hdepth : loadDepthImages env o = .ok depth)
    (hvalid : ∀ m, env.loadCameraModel o.calibrationPath = some m →
      m.isValidForProjection = true)
    (hload : if o.fromDepthPath ≠ "" ∧ (imreadUnchanged env o.fromDepthPath).empty = false ∧
        ((imreadUnchanged env o.fromDepthPath).type = CV_8UC1 ∨
          (imreadUnchanged env o.fromDepthPath).type = CV_8UC3)
      then (env.loadStereoCameraModel o.calibrationPath).isSome = true
      else (env.loadCameraModel o.calibrationPath).isSome = true) :
    ∃ p, main env argv = .ok p ∧
      p.fromDepth =
        (if o.fromDepthPath ≠ "" then
          if (imreadUnchanged env o.fromDepthPath).type = CV_8UC3 then
            { rows := (imreadUnchanged env o.fromDepthPath).rows,
              cols := (imreadUnchanged env o.fromDepthPath).cols, type := CV_8UC1 }
          else imreadUnchanged env o.fromDepthPath
        else {}) ∧
      ((p.fromDepth.empty = false ∧ p.fromDepth.type = CV_8UC1) ↔
        (o.fromDepthPath ≠ "" ∧ (imreadUnchanged env o.fromDepthPath).empty = false ∧
          ((imreadUnchanged env o.fromDepthPath).type = CV_8UC1 ∨
            (imreadUnchanged env o.fromDepthPath).type = CV_8UC3))) ∧
      p.dataFrom.id = 1 ∧ p.dataTo.id = 2 ∧
      p.dataFrom.sensorData.depthOrRight = p.fromDepth ∧
      (p.dataFrom.sensorData.calibration.isStereo = true ↔
        (p.fromDepth.empty = false ∧ p.fromDepth.type = CV_8UC1)) ∧
      (p.dataTo.sensorData.calibration.isStereo = true ↔
        (p.fromDepth.empty = false ∧ p.fromDepth.type = CV_8UC1)) ∧
      ((p.fromDepth.empty = false ∧ p.fromDepth.type = CV_8UC1) →
        ∃ s, env.loadStereoCameraModel o.calibrationPath = some s ∧
          p.dataFrom.sensorData.calibration = .stereo s ∧
          p.dataTo.sensorData.calibration = .stereo s ∧ p.model = {}) ∧
      (¬ (p.fromDepth.empty = false ∧ p.fromDepth.type = CV_8UC1) →
        ∃ m, env.loadCameraModel o.calibrationPath = some m ∧
          p.dataFrom.sensorData.calibration = .mono m ∧
          p.dataTo.sensorData.calibration = .mono m ∧ p.stereoModel = {}) := by
  have hinv := (loadDepthImages_ok_inv env o depth hcal hdepth).1
  have hiff : (depth.fromDepth.empty = false ∧ depth.fromDepth.type = CV_8UC1) ↔
      (o.fromDepthPath ≠ "" ∧ (imreadUnchanged env o.fromDepthPath).empty = false ∧
        ((imreadUnchanged env o.fromDepthPath).type = CV_8UC1 ∨
          (imreadUnchanged env o.fromDepthPath).type = CV_8UC3)) := by
    rw [hinv]
    exact loadFromDepth_stereo_iff env o
  obtain ⟨p, hp, hfd, h1, h2, hsf, hst, hS, hM⟩ :=
    mono_or_stereo_of_depth env argv o depth hlen hscan hcal hfrom hto hdepth hvalid
      (ite_of_iff hiff hload)
  refine ⟨p, hp, ?_, ?_, h1, h2, ?_, hsf, hst, hS, hM⟩
  · rw [hfd, hinv]
    exact loadFromDepth_fst env o
  · rw [hfd]
    exact hiff
  · rw [main_eq_prepare env argv o hlen hscan] at hp
    obtain ⟨d2, m2, _, _, _, _, _, _, hfd2, _, _, _, hdf, _, _⟩ :=
      prepare_ok_inv env argv o p hp
    rw [hdf, hfd2]
    unfold buildSignatures
    split <;> rfl

/-- C4 (witness): a right image stored with three 8-bit channels, with a
calibration file, is turned into a single-channel one and gives two stereo
observations. -/
theorem c4_mono_or_stereo_witness :
    (imreadUnchanged sampleEnv "from_bgr.png").type = CV_8UC3 ∧
    ∃ p, main sampleEnv
        ["rtabmap-matcher", "--calibration", "calib.yaml", "--from_depth", "from_bgr.png",
          "--to_depth", "to_right.png", "from.png", "to.png"] = .ok p ∧
      p.fromDepth = ⟨480, 640, CV_8UC1⟩ ∧
      p.dataFrom.id = 1 ∧ p.dataTo.id = 2 ∧
      p.dataFrom.sensorData.calibration.isStereo = true ∧
      p.dataTo.sensorData.calibration.isStereo = true := by
  obtain ⟨p, hp, hfd, hiff, h1, h2, _, hsf, hst, _⟩ := c4_mono_or_stereo sampleEnv
    ["rtabmap-matcher", "--calibration", "calib.yaml", "--from_depth", "from_bgr.png",
      "--to_depth", "to_right.png", "from.png", "to.png"]
    { fromDepthPath := "from_bgr.png", toDepthPath := "to_right.png",
      calibrationPath := "calib.yaml" }
    { fromDepth := ⟨480, 640, CV_8UC1⟩, toDepth := ⟨480, 640, CV_8UC1⟩ }
    (by decide) rfl (by decide) rfl rfl rfl
    (by
      intro m hm
      have h : sampleEnv.loadCameraModel "calib.yaml" = some
          { fx := 525, fy := 525, cx := 320, cy := 240, imageWidth := 640,
            imageHeight := 480 } := rfl
      rw [h] at hm
      cases hm
      rfl)
    (by
      rw [if_pos ⟨by decide, rfl, Or.inr rfl⟩]
      rfl)
  have hc : p.fromDepth.empty = false ∧ p.fromDepth.type = CV_8UC1 :=
    hiff.mpr ⟨by decide, rfl, Or.inr rfl⟩
  exact ⟨rfl, p, hp, hfd, h1, h2, hsf.mpr hc, hst.mpr hc⟩

/-! ## Correspondence lines: which ids get a line pair (C3) -/

theorem QMultiMap.mem_uniqueKeys {α : Type} (m : QMultiMap α) (key : Int) :
    key ∈ m.uniqueKeys ↔ 0 < m.count key := by
  unfold QMultiMap.uniqueKeys QMultiMap.count
  rw [List.mem_dedup, (List.perm_insertionSort _ _).mem_iff, List.count_pos_iff]

theorem QMultiMap.nodup_uniqueKeys {α : Type} (m : QMultiMap α) : m.uniqueKeys.Nodup :=
  List.nodup_dedup _

theorem QMultiMap.value_of_count_pos {α : Type} (m : QMultiMap α) (key : Int)
    (h : 0 < m.count key) : ∃ v, m.value key = some v := by
  induction m with
  | nil => simp [QMultiMap.count] at h
  | cons e rest ih =>
    obtain ⟨k, v⟩ := e
    by_cases hk : key = k
    · subst hk
      exact ⟨v, by simp [QMultiMap.value, List.lookup]⟩
    · have hb : (key == k) = false := by simpa using hk
      have hc : 0 < QMultiMap.count rest key := by
        have hk2 : ¬ k = key := fun h => hk h.symm
        simpa [QMultiMap.count, List.count_cons, hk2] using h
      obtain ⟨w, hw⟩ := ih hc
      refine ⟨w, ?_⟩
      simp only [QMultiMap.value] at hw ⊢
      simp [List.lookup, hb, hw]

theorem QMultiMap.size_pos_of_count_pos {α : Type} (m : QMultiMap α) (key : Int)
    (h : 0 < m.count key) : m.size ≠ 0 := by
  unfold QMultiMap.count at h
  unfold QMultiMap.size
  intro h0
  have : m = [] := List.length_eq_zero.mp h0
  subst this
  simp at h

theorem drawCorrespondence_id (vertical : Bool) (viewA viewB : ImageView)
    (inliersSet : List Int) (id : Int) (c : Correspondence)
    (h : drawCorrespondence vertical viewA viewB inliersSet id = some c) : c.id = id := by
  unfold drawCorrespondence at h
  simp only at h
  split at h
  · split at h
    · simp only [Option.some.injEq] at h
      rw [← h]
    · cases h
  · cases h

theorem drawCorrespondence_isSome (vertical : Bool) (viewA viewB : ImageView)
    (inliersSet : List Int) (id : Int) :
    (drawCorrespondence vertical viewA viewB inliersSet id).isSome = true ↔
      (id > 0 ∧ viewA.features.count id = 1 ∧ viewB.features.count id = 1) := by
  constructor
  · intro h
    unfold drawCorrespondence at h
    simp only at h
    split at h
    · assumption
    · simp at h
  · intro h
    obtain ⟨a, ha⟩ := QMultiMap.value_of_count_pos viewA.features id (by omega)
    obtain ⟨b, hb⟩ := QMultiMap.value_of_count_pos viewB.features id (by omega)
    unfold drawCorrespondence
    simp only [h, ha, hb, and_self, if_true, Option.isSome_some]

theorem filterMap_ids (f : Int → Option Correspondence)
    (hf : ∀ k c, f k = some c → c.id = k) (l : List Int) :
    (l.filterMap f).map (fun c => c.id) = l.filter (fun k => (f k).isSome) := by
  induction l with
  | nil => rfl
  | cons k rest ih =>
    cases hk : f k with
    | none => simp [List.filterMap_cons, hk, ih]
    | some c => simp [List.filterMap_cons, hk, ih, hf k c hk]

/-- On the sample views the loop draws ids 1 and 4 only: id -1 is not
positive, id 2 is twice in A, id 3 twice in B, id 5 absent from A. -/
theorem drawCorrespondences_sample :
    (drawCorrespondences true sampleViewA sampleViewB [1]).map (fun c => c.id) = [1, 4] := by
  rfl

/-- C3: for every pair of feature multimaps, the loop produces a line pair
for an id iff the id is positive and occurs exactly once in A's multimap and
exactly once in B's; such an id gets exactly one pair, every other id none;
and each pair adds one line to view A and one to view B. -/
theorem c3_line_pair_iff_unique_in_both (vertical : Bool) (viewA viewB : ImageView)
    (inliersSet : List Int) (id : Int) :
    ((∃ c ∈ drawCorrespondences vertical viewA viewB inliersSet, c.id = id) ↔
      (id > 0 ∧ viewA.features.count id = 1 ∧ viewB.features.count id = 1)) ∧
    ((drawCorrespondences vertical viewA viewB inliersSet).map (fun c => c.id)).count id =
      (if id > 0 ∧ viewA.features.count id = 1 ∧ viewB.features.count id = 1 then 1 else 0) ∧
    (linesAddedToA (drawCorrespondences vertical viewA viewB inliersSet)).length =
      (drawCorrespondences vertical viewA viewB inliersSet).length ∧
    (linesAddedToB (drawCorrespondences vertical viewA viewB inliersSet)).length =
      (drawCorrespondences vertical viewA viewB inliersSet).length := by
  have hcount : ((drawCorrespondences vertical viewA viewB inliersSet).map
      (fun c => c.id)).count id =
      (if id > 0 ∧ viewA.features.count id = 1 ∧ viewB.features.count id = 1
        then 1 else 0) := by
    unfold drawCorrespondences
    by_cases hsize : viewA.features.size ≠ 0 ∧ viewB.features.size ≠ 0
    · rw [if_pos hsize, filterMap_ids _ (drawCorrespondence_id vertical viewA viewB inliersSet)]
      have hnd : (viewA.features.uniqueKeys.filter (fun k =>
          (drawCorrespondence vertical viewA viewB inliersSet k).isSome)).Nodup :=
        (QMultiMap.nodup_uniqueKeys _).filter _
      rw [List.count_eq_of_nodup hnd]
      simp only [List.mem_filter, QMultiMap.mem_uniqueKeys, drawCorrespondence_isSome]
      by_cases he : id > 0 ∧ viewA.features.count id = 1 ∧ viewB.features.count id = 1
      · have : 0 < viewA.features.count id := by omega
        simp [he, this]
      · simp [he]
    · rw [if_neg hsize]
      have he : ¬ (id > 0 ∧ viewA.features.count id = 1 ∧ viewB.features.count id = 1) := by
        rintro ⟨_, ha, hb⟩
        exact hsize ⟨QMultiMap.size_pos_of_count_pos _ id (by omega),
          QMultiMap.size_pos_of_count_pos _ id (by omega)⟩
      simp [he]
  refine ⟨?_, hcount, by simp [linesAddedToA], by simp [linesAddedToB]⟩
  have hmem : (∃ c ∈ drawCorrespondences vertical viewA viewB inliersSet, c.id = id) ↔
      0 < ((drawCorrespondences vertical viewA viewB inliersSet).map
        (fun c => c.id)).count id := by
    rw [List.count_pos_iff, List.mem_map]
  rw [hmem, hcount]
  by_cases he : id > 0 ∧ viewA.features.count id = 1 ∧ viewB.features.count id = 1
  · simp [he]
  · simp [he]


/-! ## Correspondence lines: endpoints in view A (C7) -/

/-- C7: for every eligible correspondence with positive view scales, the line
added to view A starts at A's feature centre and ends at B's feature centre
divided by `scaleDiff` = scaleA/scaleB and shifted by A's placement offset,
which is (0, heightA/scaleA) when stacked vertically and (widthA/scaleA, 0)
when side by side; with both scales 1 and a zero offset the end point is B's
feature centre itself. -/
theorem c7_line_in_view_a (vertical : Bool) (viewA viewB : ImageView) (inliersSet : List Int)
    (id : Int) (kptA kptB : KeypointItem)
    (_hscaleA : 0 < viewA.viewScale) (_hscaleB : 0 < viewB.viewScale)
    (hid : id > 0) (hcountA : viewA.features.count id = 1)
    (hcountB : viewB.features.count id = 1)
    (hkptA : viewA.features.value id = some kptA)
    (hkptB : viewB.features.value id = some kptB) :
    ∃ c, drawCorrespondence vertical viewA viewB inliersSet id = some c ∧
      c.lineA.x1 = kptA.rect.x + kptA.rect.width / 2 ∧
      c.lineA.y1 = kptA.rect.y + kptA.rect.height / 2 ∧
      c.lineA.x2 = (kptB.rect.x + kptB.rect.width / 2) / (viewA.viewScale / viewB.viewScale)
        + (if vertical then 0 else (viewA.width : ℚ) / viewA.viewScale) ∧
      c.lineA.y2 = (kptB.rect.y + kptB.rect.height / 2) / (viewA.viewScale / viewB.viewScale)
        + (if vertical then (viewA.height : ℚ) / viewA.viewScale else 0) ∧
      (viewA.viewScale = 1 → viewB.viewScale = 1 →
        (if vertical then 0 else (viewA.width : ℚ) / viewA.viewScale) = 0 →
        (if vertical then (viewA.height : ℚ) / viewA.viewScale else 0) = 0 →
        c.lineA.x2 = kptB.rect.x + kptB.rect.width / 2 ∧
        c.lineA.y2 = kptB.rect.y + kptB.rect.height / 2) := by
  have hx : kptB.rect.x / scaleDiff viewA viewB + kptB.rect.width / scaleDiff viewA viewB / 2
      + deltaAX vertical viewA
      = (kptB.rect.x + kptB.rect.width / 2) / (viewA.viewScale / viewB.viewScale)
        + (if vertical then 0 else (viewA.width : ℚ) / viewA.viewScale) := by
    simp only [scaleDiff, deltaAX]
    ring
  have hy : kptB.rect.y / scaleDiff viewA viewB + kptB.rect.height / scaleDiff viewA viewB / 2
      + deltaAY vertical viewA
      = (kptB.rect.y + kptB.rect.height / 2) / (viewA.viewScale / viewB.viewScale)
        + (if vertical then (viewA.height : ℚ) / viewA.viewScale else 0) := by
    simp only [scaleDiff, deltaAY]
    ring
  have hsome := (drawCorrespondence_isSome vertical viewA viewB inliersSet id).mpr
    ⟨hid, hcountA, hcountB⟩
  obtain ⟨c, hc⟩ := Option.isSome_iff_exists.mp hsome
  refine ⟨c, hc, ?_⟩
  simp only [drawCorrespondence, hid, hcountA, hcountB, hkptA, hkptB, and_self, if_true,
    Option.some.injEq] at hc
  subst hc
  refine ⟨rfl, rfl, hx, hy, ?_⟩
  intro hA hB hoffX hoffY
  simp only
  rw [hx, hy, hoffX, hoffY, hA, hB]
  constructor <;> ring

/-- C7 (witness): id 1 of the sample views, stacked vertically. -/
theorem c7_line_in_view_a_witness :
    ∃ c, drawCorrespondence true sampleViewA sampleViewB [1] 1 = some c ∧
      c.lineA.x1 = 10 + 4 / 2 ∧ c.lineA.y1 = 20 + 6 / 2 ∧
      c.lineA.x2 = (12 + 8 / 2) / ((1 / 2 : ℚ) / (1 / 4)) + 0 ∧
      c.lineA.y2 = (24 + 4 / 2) / ((1 / 2 : ℚ) / (1 / 4)) + (240 : ℚ) / (1 / 2) := by
  obtain ⟨c, hc, h1, h2, h3, h4, _⟩ := c7_line_in_view_a true sampleViewA sampleViewB [1] 1
    ⟨⟨10, 20, 4, 6⟩⟩ ⟨⟨12, 24, 8, 4⟩⟩
    (by norm_num [sampleViewA]) (by norm_num [sampleViewB]) (by decide) rfl rfl rfl rfl
  refine ⟨c, hc, h1, h2, ?_, ?_⟩
  · rw [h3]; norm_num [sampleViewA, sampleViewB]
  · rw [h4]; norm_num [sampleViewA, sampleViewB]

/-! ## Correspondence lines: colours (C8) -/

/-- C8: for every eligible correspondence id and in each view, the line
colour equals the colour set on the feature marker; it is the default
matching-feature colour of the view when the id is in the inlier set and its
matching-line colour otherwise, so (the two default colours of a view being
distinct) it is the matching-feature colour iff the id is an inlier; and the
same inlier set gives the same result again. -/
theorem c8_line_and_marker_colours (vertical : Bool) (viewA viewB : ImageView)
    (inliersSet : List Int) (id : Int)
    (hid : id > 0) (hcountA : viewA.features.count id = 1)
    (hcountB : viewB.features.count id = 1) :
    ∃ c, drawCorrespondence vertical viewA viewB inliersSet id = some c ∧
      c.lineA.color = c.featureColorA ∧ c.lineB.color = c.featureColorB ∧
      c.featureColorA = (if id ∈ inliersSet then viewA.defaultMatchingFeatureColor
        else viewA.defaultMatchingLineColor) ∧
      c.featureColorB = (if id ∈ inliersSet then viewB.defaultMatchingFeatureColor
        else viewB.defaultMatchingLineColor) ∧
      (viewA.defaultMatchingFeatureColor ≠ viewA.defaultMatchingLineColor →
        (c.lineA.color = viewA.defaultMatchingFeatureColor ↔ id ∈ inliersSet)) ∧
      (viewB.defaultMatchingFeatureColor ≠ viewB.defaultMatchingLineColor →
        (c.lineB.color = viewB.defaultMatchingFeatureColor ↔ id ∈ inliersSet)) ∧
      (∀ inliersSet2 : List Int, (∀ k, k ∈ inliersSet2 ↔ k ∈ inliersSet) →
        drawCorrespondence vertical viewA viewB inliersSet2 id = some c) := by
  obtain ⟨a, ha⟩ := QMultiMap.value_of_count_pos viewA.features id (by omega)
  obtain ⟨b, hb⟩ := QMultiMap.value_of_count_pos viewB.features id (by omega)
  have hsome := (drawCorrespondence_isSome vertical viewA viewB inliersSet id).mpr
    ⟨hid, hcountA, hcountB⟩
  obtain ⟨c, hc⟩ := Option.isSome_iff_exists.mp hsome
  refine ⟨c, hc, ?_⟩
  simp only [drawCorrespondence, hid, hcountA, hcountB, ha, hb, and_self, if_true,
    Option.some.injEq] at hc
  subst hc
  refine ⟨rfl, rfl, ?_, ?_, ?_, ?_, ?_⟩
  · by_cases h : id ∈ inliersSet <;> simp [h]
  · by_cases h : id ∈ inliersSet <;> simp [h]
  · intro hne
    by_cases h : id ∈ inliersSet
    · simp [h]
    · simp [h, Ne.symm hne]
  · intro hne
    by_cases h : id ∈ inliersSet
    · simp [h]
    · simp [h, Ne.symm hne]
  · intro inliersSet2 hsame
    simp only [drawCorrespondence, hid, hcountA, hcountB, ha, hb, and_self, if_true, hsame id]

/-- C8 (witness): id 4 of the sample views is not an inlier and gets the
candidate colour on both lines and both markers. -/
theorem c8_line_and_marker_colours_witness :
    ∃ c, drawCorrespondence true sampleViewA sampleViewB [1] 4 = some c ∧
      c.lineA.color = c.featureColorA ∧ c.lineB.color = c.featureColorB ∧
      c.featureColorA = sampleViewA.defaultMatchingLineColor ∧
      c.featureColorB = sampleViewB.defaultMatchingLineColor := by
  obtain ⟨c, hc, h1, h2, h3, h4, _⟩ :=
    c8_line_and_marker_colours true sampleViewA sampleViewB [1] 4 (by decide) rfl rfl
  exact ⟨c, hc, h1, h2, by rw [h3]; rfl, by rw [h4]; rfl⟩

/-! ## Correspondence lines: the two frames (C10) -/

/-- Taking a coordinate from B's frame to A's and back with the formulas of
the two `addLine` calls: horizontally the coordinate returns unchanged;
vertically it is shifted by (heightA - heightB)/scaleB in a vertical stack. -/
theorem round_trip_of_frames (vertical : Bool) (viewA viewB : ImageView)
    (hscaleA : 0 < viewA.viewScale) (hscaleB : 0 < viewB.viewScale) (x y : ℚ) :
    (x / scaleDiff viewA viewB + deltaAX vertical viewA) * scaleDiff viewA viewB
        - deltaBX vertical viewA viewB = x ∧
    (y / scaleDiff viewA viewB + deltaAY vertical viewA) * scaleDiff viewA viewB
        - deltaBY vertical viewB
      = y + (if vertical then ((viewA.height : ℚ) - viewB.height) / viewB.viewScale else 0) := by
  have hA : viewA.viewScale ≠ 0 := ne_of_gt hscaleA
  have hB : viewB.viewScale ≠ 0 := ne_of_gt hscaleB
  cases vertical
  · simp only [scaleDiff, deltaAX, deltaAY, deltaBX, deltaBY, Bool.false_eq_true, if_false]
    constructor <;> field_simp
  · simp only [scaleDiff, deltaAX, deltaAY, deltaBX, deltaBY, if_true]
    constructor
    · field_simp
    · field_simp
      ring

/-- C10 (evaluation at the failing input): two views stacked vertically at
zoom 1, A 301 pixels high and B 300. B's feature centre (10, 20) lands at
(10, 321) in A's frame, where A's feature sits; taken back with the formula
of view B's line it comes out at (10, 21), one pixel off B's centre. -/
theorem c10_vertical_stack_is_not_dual :
    ∃ c, drawCorrespondence true stackedViewA stackedViewB [1] 1 = some c ∧
      (c.lineA.x2, c.lineA.y2) = (10, 321) ∧
      (c.lineA.x1, c.lineA.y1) = (10, 321) ∧
      (c.lineB.x2, c.lineB.y2) = (10, 20) ∧
      (c.lineB.x1, c.lineB.y1) = (10, 21) ∧
      (c.lineB.x1, c.lineB.y1) ≠ (c.lineB.x2, c.lineB.y2) := by
  refine ⟨_, rfl, ?_, ?_, ?_, ?_, ?_⟩ <;>
    norm_num [scaleDiff, deltaAX, deltaAY, deltaBX, deltaBY, stackedViewA, stackedViewB]

end Matcher
